import Mathlib

/-
Verification of the fileshare repository (a fetch/detect/build/install
pipeline) against its specification.

The repository ships two near-duplicate variants of the pipeline:
  * `src/fileshare.py`           ("FileShare v2") — embedded in namespace `Fileshare.V2`
  * `src/FileShare/fileshare.py` (the older v1)  — embedded in namespace `Fileshare.V1`
Helpers that are textually identical in the two files (run, extract_zip,
remove_repo, clean_tempfolder, the fetch loop) are embedded once, in the
shared namespace `Fileshare`.

Modelling conventions.  Every external effect of the Python code is recorded
as an event (`Ev`) in a trace, in program order: HTTP GETs, file writes,
archive extraction attempts, shell commands launched through `run`
(`subprocess.run(cmd, shell=True)`), the `os.chmod` on install.sh and the
direct `subprocess.run(["./install.sh"])` invocation, plus every `print`.
Print strings follow the source except that quote punctuation inside
f-strings is elided.  The outside world (HTTP statuses, exit codes of
external commands, which marker files an archive put into the workspace,
which paths exist) is a `World` of response functions, so each embedded
operation is a pure function of the `World` and its arguments.  Process
termination is explicit: `Outcome.exited c` models `sys.exit(c)`,
`Outcome.exception m` models an uncaught Python exception (interpreter exit
code 1), `Outcome.normal` models falling off the end (interpreter exit
code 0).
-/

namespace Fileshare

/-- An observable effect of the pipeline, in program order. -/
inductive Ev where
  | httpGet (url : String)
  | writeFile (fname : String)
  | extractZip (fname : String)
  | chmodScript
  | runScript
  | detect
  | cmd (c : String)
  | msg (s : String)
  deriving DecidableEq, Repr

/-- Events that the fetch loop can emit: HTTP probes, workspace writes and
prints — in particular no shell command, no extraction, no script run. -/
def fetchish : Ev → Bool
  | Ev.httpGet _ => true
  | Ev.writeFile _ => true
  | Ev.msg _ => true
  | _ => false

/-- Events that the extraction loop can emit: extraction attempts and
prints. -/
def extractish : Ev → Bool
  | Ev.extractZip _ => true
  | Ev.msg _ => true
  | _ => false

/-- Events that the detect/build/install phase can emit: the detector entry
marker, prints, and shell commands — in particular no extraction, no HTTP
probe and no install-script run. -/
def autoish : Ev → Bool
  | Ev.detect => true
  | Ev.msg _ => true
  | Ev.cmd _ => true
  | _ => false

/-- How a pipeline entry point terminates: fall off the end (process exit 0),
`sys.exit code`, or an uncaught Python exception (process exit 1). -/
inductive Outcome where
  | normal
  | exited (code : Nat)
  | exception (m : String)
  deriving DecidableEq, Repr

/-- Responses of the outside world, one field per kind of external probe the
source performs.  `status` is the HTTP status per candidate filename;
`raisesOn` says whether `requests.get` raises for that candidate; `cmdCode`
is the exit status of a shell command launched via `run`; `scriptCode` is the
exit status of `./install.sh`; `pyFlags` is the hidden-import flag string
`py_flags` that `detect_and_build` (v2) computes by probing the host with
`importlib.util.find_spec`, abstracted as a host-supplied value; `marker`
says which files exist in the workspace when the detector probes it;
`buildOut` answers the `os.path.exists` checks on build outputs;
`preExisting` says which candidate files were already in the workspace
before the fetch; `zipOk` says whether a downloaded archive is a valid zip. -/
structure World where
  status : String → Nat
  raisesOn : String → Bool
  cmdCode : String → Nat
  scriptCode : Nat
  pyFlags : String
  marker : String → Bool
  buildOut : String → Bool
  preExisting : String → Bool
  zipOk : String → Bool

/-- Auxiliary for `pySplit`: scan the characters, cutting at every slash. -/
def splitAux : List Char → List Char → List String
  | [], acc => [String.mk acc.reverse]
  | c :: cs, acc =>
    if c = '/' then String.mk acc.reverse :: splitAux cs []
    else splitAux cs (c :: acc)

/-- Python `s.split("/")`: the segments of `s` between slashes. -/
def pySplit (s : String) : List String := splitAux s.data []

/-- Python `"/" in s`. -/
def hasSlash (s : String) : Bool := s.data.contains '/'

/-- Python `s.strip("/")`: drop leading and trailing slashes. -/
def stripSlashes (s : String) : String :=
  String.mk (((s.data.dropWhile fun c => c = '/').reverse.dropWhile
    fun c => c = '/').reverse)

/-- Python `Path(p).name`: the component after the last slash. -/
def basename (p : String) : String := (pySplit p).getLastD p

def BASE_URL : String := "https://quanthai.net/repos"

def TMP_DIR : String := "/tmp/fsdl"

/-- The fixed candidate list probed by the fetch loop. -/
def files_to_try : List String := ["main.zip", "app.zip", "root.zip", "install.sh"]

/-- The workspace-deletion command string used by `clean_tempfolder` (both
variants) and by the v1 `install_binary`. -/
def rm_tmp_cmd : String := "sudo rm -rf /tmp/fsdl"

/-- `run(cmd)` (identical in both variants): launch the shell command; on a
non-zero exit status print the failure and `sys.exit(1)`. -/
def run (w : World) (c : String) : List Ev × Except Outcome Unit :=
  if w.cmdCode c = 0 then ([Ev.cmd c], Except.ok ())
  else ([Ev.cmd c, Ev.msg ("Command failed: " ++ c)],
    Except.error (Outcome.exited 1))

/-- `extract_zip(path)` (identical in both variants): attempt extraction; a
`BadZipFile` is caught and only reported. -/
def extract_zip (w : World) (fname : String) : List Ev :=
  if w.zipOk fname then [Ev.extractZip fname, Ev.msg ("Extracted " ++ fname)]
  else [Ev.extractZip fname, Ev.msg ("Bad ZIP file: " ++ fname)]

/-- The URL probed for one candidate: `{BASE_URL}/{repo_path}/{fname}`. -/
def candidateUrl (repo_path fname : String) : String :=
  BASE_URL ++ "/" ++ repo_path ++ "/" ++ fname

/-- One iteration of the fetch loop: GET the candidate URL; on HTTP 200 write
the body into the workspace and record the candidate as downloaded; on any
other status or on a transport exception, report and continue. -/
def fetchOne (w : World) (repo_path fname : String) : List Ev × List String :=
  let url := candidateUrl repo_path fname
  if w.raisesOn fname then
    ([Ev.msg ("Trying " ++ url ++ " ..."), Ev.httpGet url,
      Ev.msg ("Error fetching " ++ fname)], [])
  else if w.status fname = 200 then
    ([Ev.msg ("Trying " ++ url ++ " ..."), Ev.httpGet url, Ev.writeFile fname,
      Ev.msg ("Downloaded " ++ fname)], [fname])
  else
    ([Ev.msg ("Trying " ++ url ++ " ..."), Ev.httpGet url,
      Ev.msg ("Not found: " ++ fname)], [])

/-- The whole fetch loop over `files_to_try`, in order; returns the fetch
trace and the `downloaded` list. -/
def fetchAll (w : World) (repo_path : String) : List Ev × List String :=
  let r1 := fetchOne w repo_path "main.zip"
  let r2 := fetchOne w repo_path "app.zip"
  let r3 := fetchOne w repo_path "root.zip"
  let r4 := fetchOne w repo_path "install.sh"
  (r1.1 ++ r2.1 ++ r3.1 ++ r4.1, r1.2 ++ r2.2 ++ r3.2 ++ r4.2)

/-- `os.path.exists(TMP_DIR/fname)` after the fetch: the candidate was either
just downloaded or already present in the workspace. -/
def tmpHas (w : World) (downloaded : List String) (fname : String) : Bool :=
  downloaded.contains fname || w.preExisting fname

/-- The extraction loop over the three archive candidates, in order, guarded
by existence in the workspace. -/
def extractPhase (w : World) (downloaded : List String) : List Ev :=
  (if tmpHas w downloaded "main.zip" then extract_zip w "main.zip" else [])
    ++ (if tmpHas w downloaded "app.zip" then extract_zip w "app.zip" else [])
    ++ (if tmpHas w downloaded "root.zip" then extract_zip w "root.zip" else [])

/-- Removing one path from the filesystem model (`sudo rm -rf p`). -/
def fsRemove (fs : String → Bool) (p : String) : String → Bool :=
  fun q => if q = p then false else fs q

/-- Result of `remove_repo`: the filesystem after the call, the trace, and
the termination outcome. -/
structure RmOut where
  fs : String → Bool
  evs : List Ev
  outcome : Outcome

/-- Body of `remove_repo` after the package name is resolved: independently
remove-or-report the system binary path and the package data directory; a
failing `rm` command makes `run` exit the process (code 1) before the second
block runs. -/
def removeCore (w : World) (fs : String → Bool) (reponame : String) : RmOut :=
  let bin_path := "/usr/local/bin/" ++ reponame
  let share_path := "/usr/share/" ++ reponame
  if fs bin_path then
    let cb := "sudo rm -rf " ++ bin_path
    if w.cmdCode cb = 0 then
      let fs1 := fsRemove fs bin_path
      let e1 := [Ev.cmd cb, Ev.msg ("Removed binary from " ++ bin_path)]
      if fs1 share_path then
        let cs := "sudo rm -rf " ++ share_path
        if w.cmdCode cs = 0 then
          ⟨fsRemove fs1 share_path,
            e1 ++ [Ev.cmd cs, Ev.msg ("Removed directory " ++ share_path)],
            Outcome.normal⟩
        else
          ⟨fs1, e1 ++ [Ev.cmd cs, Ev.msg ("Command failed: " ++ cs)],
            Outcome.exited 1⟩
      else ⟨fs1, e1 ++ [Ev.msg "Share directory not found"], Outcome.normal⟩
    else
      ⟨fs, [Ev.cmd cb, Ev.msg ("Command failed: " ++ cb)], Outcome.exited 1⟩
  else
    let e1 := [Ev.msg "Binary not found in /usr/local/bin"]
    if fs share_path then
      let cs := "sudo rm -rf " ++ share_path
      if w.cmdCode cs = 0 then
        ⟨fsRemove fs share_path,
          e1 ++ [Ev.cmd cs, Ev.msg ("Removed directory " ++ share_path)],
          Outcome.normal⟩
      else
        ⟨fs, e1 ++ [Ev.cmd cs, Ev.msg ("Command failed: " ++ cs)],
          Outcome.exited 1⟩
    else ⟨fs, e1 ++ [Ev.msg "Share directory not found"], Outcome.normal⟩

/-- `remove_repo(repo_path)` (identical in both variants): with a slash the
two-way unpacking `_, reponame = repo_path.split("/")` keeps the segment
after the separator (and raises `ValueError` unless the split has exactly two
parts); without a slash the whole input is the package name. -/
def remove_repo (w : World) (fs : String → Bool) (repo_path : String) : RmOut :=
  if hasSlash repo_path then
    if (pySplit repo_path).length = 2 then
      removeCore w fs ((pySplit repo_path).getD 1 "")
    else ⟨fs, [], Outcome.exception "ValueError"⟩
  else removeCore w fs repo_path

/-- `clean_tempfolder()` (identical in both variants). -/
def clean_tempfolder (w : World) : List Ev × Outcome :=
  match run w rm_tmp_cmd with
  | (e, Except.error o) => (e, o)
  | (e, Except.ok _) => (e ++ [Ev.msg "Cleaning complete"], Outcome.normal)

/-- The process exit code determined by an `Outcome`: normal fall-through
exits 0, `sys.exit(c)` exits `c`, an uncaught exception exits 1. -/
def procExit : Outcome → Nat
  | Outcome.normal => 0
  | Outcome.exited c => c
  | Outcome.exception _ => 1

namespace V2

/-- The PyInstaller build command of v2:
`sudo pyinstaller --onefile main.py --name {reponame} {py_flags}`. -/
def pyinstaller_cmd (w : World) (reponame : String) : String :=
  "sudo pyinstaller --onefile main.py --name " ++ reponame ++ " " ++ w.pyFlags

/-- The PyInstaller output path `Path(TMP_DIR) / "dist" / reponame`. -/
def dist_path (reponame : String) : String := TMP_DIR ++ "/dist/" ++ reponame

/-- `detect_and_build(reponame)` of v2 (src/fileshare.py lines 33-69): probe
the workspace for `main.py`, `main.go`, `main.cpp`, `Makefile` in that order,
invoke the first matching toolchain, and return the produced artifact path
(or none).  The `Ev.detect` event marks entry into the detector (the
`os.chdir(TMP_DIR)` probe preamble). -/
def detect_and_build (w : World) (reponame : String) :
    List Ev × Except Outcome (Option String) :=
  let e0 := [Ev.detect]
  if w.marker "main.py" then
    let e1 := e0 ++ [Ev.msg "Detected Python app. Building with PyInstaller..."]
    match run w "pip install pyinstaller" with
    | (e2, Except.error o) => (e1 ++ e2, Except.error o)
    | (e2, Except.ok _) =>
      match run w (pyinstaller_cmd w reponame) with
      | (e3, Except.error o) => (e1 ++ e2 ++ e3, Except.error o)
      | (e3, Except.ok _) =>
        if w.buildOut (dist_path reponame) then
          (e1 ++ e2 ++ e3, Except.ok (some (dist_path reponame)))
        else (e1 ++ e2 ++ e3, Except.ok none)
  else if w.marker "main.go" then
    let e1 := e0 ++ [Ev.msg "Detected Go app. Building with go build..."]
    match run w ("go build -o " ++ reponame ++ " main.go") with
    | (e2, Except.error o) => (e1 ++ e2, Except.error o)
    | (e2, Except.ok _) => (e1 ++ e2, Except.ok (some reponame))
  else if w.marker "main.cpp" then
    let e1 := e0 ++ [Ev.msg "Detected C++ app. Building with g++..."]
    match run w ("g++ main.cpp -o " ++ reponame) with
    | (e2, Except.error o) => (e1 ++ e2, Except.error o)
    | (e2, Except.ok _) => (e1 ++ e2, Except.ok (some reponame))
  else if w.marker "Makefile" then
    let e1 := e0 ++ [Ev.msg "Makefile found. Running make..."]
    match run w "make" with
    | (e2, Except.error o) => (e1 ++ e2, Except.error o)
    | (e2, Except.ok _) => (e1 ++ e2, Except.ok none)
  else
    (e0 ++ [Ev.msg "No known entry point found. Please consider checking the repository source."],
      Except.ok none)

/-- `install_binary(binary_path, reponame)` of v2 (src/fileshare.py lines
71-80): chmod, copy to /usr/local/bin, create /usr/share/{reponame}, copy
there too.  Note: no workspace cleanup. -/
def install_binary (w : World) (binary_path reponame : String) :
    List Ev × Except Outcome Unit :=
  let bin_name := basename binary_path
  let dest_bin := "/usr/local/bin/" ++ bin_name
  let share_dir := "/usr/share/" ++ reponame
  match run w ("chmod +x " ++ binary_path) with
  | (e1, Except.error o) => (e1, Except.error o)
  | (e1, Except.ok _) =>
    match run w ("sudo cp " ++ binary_path ++ " " ++ dest_bin) with
    | (e2, Except.error o) => (e1 ++ e2, Except.error o)
    | (e2, Except.ok _) =>
      match run w ("sudo mkdir -p " ++ share_dir) with
      | (e3, Except.error o) => (e1 ++ e2 ++ e3, Except.error o)
      | (e3, Except.ok _) =>
        match run w ("sudo cp " ++ binary_path ++ " " ++ share_dir) with
        | (e4, Except.error o) => (e1 ++ e2 ++ e3 ++ e4, Except.error o)
        | (e4, Except.ok _) =>
          (e1 ++ e2 ++ e3 ++ e4 ++ [Ev.msg ("Installed as " ++ bin_name)],
            Except.ok ())

/-- The automatic-installer block of v2 `get_repo` (src/fileshare.py lines
154-161): run the detector/builder, then the installer when an artifact was
produced and exists on disk, otherwise report the failed build. -/
def autoPhase (w : World) (reponame : String) : List Ev × Outcome :=
  match detect_and_build w reponame with
  | (de, Except.error o) => (de, o)
  | (de, Except.ok obin) =>
    match obin with
    | some bp =>
      if w.buildOut bp then
        match install_binary w bp reponame with
        | (ie, Except.error o) => (de ++ ie, o)
        | (ie, Except.ok _) => (de ++ ie ++ [Ev.msg "Done."], Outcome.normal)
      else
        (de ++ [Ev.msg "Build failed or binary not found.", Ev.msg "Done."],
          Outcome.normal)
    | none =>
      (de ++ [Ev.msg "Build failed or binary not found.", Ev.msg "Done."],
        Outcome.normal)

/-- `get_repo(repo_path, flags)` of v2 (src/fileshare.py lines 103-162):
fetch all candidates; abort with exit 1 when none was retrieved; with
`--no-unzip` stop after the fetch; otherwise extract the downloaded archives,
split the repo path (possible `ValueError`), and either run a retrieved
`install.sh` (short-circuit, its failure only reported) or run the detector,
builder and installer (`autoPhase`). -/
def get_repo (w : World) (repo_path : String) (flags : List String) :
    List Ev × Outcome :=
  let no_unzip := flags.contains "--no-unzip"
  let fe := (fetchAll w repo_path).1
  let downloaded := (fetchAll w repo_path).2
  let pre := Ev.msg ("Fetching repo: " ++ repo_path) :: fe
  if downloaded.isEmpty then
    (pre ++ [Ev.msg "No files found in repo."], Outcome.exited 1)
  else if no_unzip then
    (pre ++ [Ev.msg "--no-unzip used. Skipping extraction and install."],
      Outcome.normal)
  else
    let ex := extractPhase w downloaded
    if (pySplit repo_path).length ≠ 2 then
      (pre ++ ex, Outcome.exception "ValueError")
    else
      let reponame := (pySplit repo_path).getD 1 ""
      if downloaded.contains "install.sh" then
        (pre ++ ex
          ++ [Ev.msg "install.sh found. Running and skipping default installer protocol...",
            Ev.chmodScript, Ev.runScript]
          ++ (if w.scriptCode = 0 then [] else [Ev.msg "install.sh failed. Aborting."]),
          Outcome.normal)
      else
        (pre ++ ex
          ++ Ev.msg "No install.sh found. Using automatic installer protocol..."
            :: (autoPhase w reponame).1,
          (autoPhase w reponame).2)

/-- `main()` of v2 (src/fileshare.py lines 183-213): root check first, then
help, command dispatch, missing-argument check, and the `get`/`remove`
subcommands on the slash-stripped path. -/
def mainF (w : World) (fs : String → Bool) (euid : Nat) (argv : List String) :
    List Ev × Outcome :=
  if euid ≠ 0 then
    ([Ev.msg "Please run with sudo."], Outcome.exited 1)
  else if argv.length < 2 ∨ argv.contains "--help" = true then
    ([Ev.msg "<help text>"], Outcome.exited 0)
  else
    let command := argv.getD 1 ""
    if ¬ (command = "get" ∨ command = "remove" ∨ command = "clean") then
      ([Ev.msg ("Unknown command: " ++ command), Ev.msg "<help text>"],
        Outcome.exited 1)
    else if command = "clean" then
      clean_tempfolder w
    else if argv.length < 3 then
      ([Ev.msg "Error: Missing repo path.", Ev.msg "<help text>"],
        Outcome.exited 1)
    else
      let repo_path := stripSlashes (argv.getD 2 "")
      let flags := argv.drop 3
      if command = "get" then get_repo w repo_path flags
      else ((remove_repo w fs repo_path).evs, (remove_repo w fs repo_path).outcome)

end V2

namespace V1

/-- `detect_and_build()` of v1 (src/FileShare/fileshare.py lines 31-52): same
marker priority order as v2, but fixed output names (`dist/main`, `app_bin`)
and no hidden-import flags. -/
def detect_and_build (w : World) : List Ev × Except Outcome (Option String) :=
  let e0 := [Ev.detect]
  if w.marker "main.py" then
    let e1 := e0 ++ [Ev.msg "Detected Python app. Building with PyInstaller..."]
    match run w "pip install pyinstaller" with
    | (e2, Except.error o) => (e1 ++ e2, Except.error o)
    | (e2, Except.ok _) =>
      match run w "pyinstaller --onefile main.py" with
      | (e3, Except.error o) => (e1 ++ e2 ++ e3, Except.error o)
      | (e3, Except.ok _) => (e1 ++ e2 ++ e3, Except.ok (some "dist/main"))
  else if w.marker "main.go" then
    let e1 := e0 ++ [Ev.msg "Detected Go app. Building with go build..."]
    match run w "go build -o app_bin main.go" with
    | (e2, Except.error o) => (e1 ++ e2, Except.error o)
    | (e2, Except.ok _) => (e1 ++ e2, Except.ok (some "app_bin"))
  else if w.marker "main.cpp" then
    let e1 := e0 ++ [Ev.msg "Detected C++ app. Building with g++..."]
    match run w "g++ main.cpp -o app_bin" with
    | (e2, Except.error o) => (e1 ++ e2, Except.error o)
    | (e2, Except.ok _) => (e1 ++ e2, Except.ok (some "app_bin"))
  else if w.marker "Makefile" then
    let e1 := e0 ++ [Ev.msg "Makefile found. Running make..."]
    match run w "make" with
    | (e2, Except.error o) => (e1 ++ e2, Except.error o)
    | (e2, Except.ok _) => (e1 ++ e2, Except.ok none)
  else
    (e0 ++ [Ev.msg "No known entry point found. Please consider using --no-unzip or --ignore-default."],
      Except.ok none)

/-- `install_binary(binary_path, reponame)` of v1 (src/FileShare/fileshare.py
lines 54-61): chmod, the two copies, the report, and then — unlike v2 —
`run("sudo rm -rf /tmp/fsdl")`, deleting the workspace. -/
def install_binary (w : World) (binary_path reponame : String) :
    List Ev × Except Outcome Unit :=
  let bin_name := basename binary_path
  match run w ("chmod +x " ++ binary_path) with
  | (e1, Except.error o) => (e1, Except.error o)
  | (e1, Except.ok _) =>
    match run w ("sudo cp " ++ binary_path ++ " /usr/local/bin/" ++ bin_name) with
    | (e2, Except.error o) => (e1 ++ e2, Except.error o)
    | (e2, Except.ok _) =>
      match run w ("sudo mkdir -p /usr/share/" ++ reponame ++ "/") with
      | (e3, Except.error o) => (e1 ++ e2 ++ e3, Except.error o)
      | (e3, Except.ok _) =>
        match run w ("sudo cp " ++ binary_path ++ " /usr/share/" ++ reponame ++ "/") with
        | (e4, Except.error o) => (e1 ++ e2 ++ e3 ++ e4, Except.error o)
        | (e4, Except.ok _) =>
          match run w rm_tmp_cmd with
          | (e5, Except.error o) =>
            (e1 ++ e2 ++ e3 ++ e4 ++ [Ev.msg ("Installed as " ++ bin_name)] ++ e5,
              Except.error o)
          | (e5, Except.ok _) =>
            (e1 ++ e2 ++ e3 ++ e4 ++ [Ev.msg ("Installed as " ++ bin_name)] ++ e5,
              Except.ok ())

/-- The automatic-detection block of v1 `get_repo` (src/FileShare/fileshare.py
lines 129-134): run the detector/builder, then the installer when an artifact
was produced and exists on disk, otherwise report the failed build. -/
def autoPhase (w : World) (reponame : String) : List Ev × Outcome :=
  match detect_and_build w with
  | (de, Except.error o) => (de, o)
  | (de, Except.ok obin) =>
    match obin with
    | some bp =>
      if w.buildOut bp then
        match install_binary w bp reponame with
        | (ie, Except.error o) => (de ++ ie, o)
        | (ie, Except.ok _) => (de ++ ie ++ [Ev.msg "Done."], Outcome.normal)
      else
        (de ++ [Ev.msg "Build failed or output binary not found.", Ev.msg "Done."],
          Outcome.normal)
    | none =>
      (de ++ [Ev.msg "Build failed or output binary not found.", Ev.msg "Done."],
        Outcome.normal)

/-- `get_repo(repo_path, flags)` of v1 (src/FileShare/fileshare.py lines
84-136): fetch all candidates; abort with exit 1 when none was retrieved;
`--no-unzip` skips only the extraction loop; then split the repo path
(possible `ValueError`); a retrieved `install.sh` is run only when
`--ignore-default` was given (and its exit status is not checked); otherwise
the detector, builder and installer run (`autoPhase`). -/
def get_repo (w : World) (repo_path : String) (flags : List String) :
    List Ev × Outcome :=
  let no_unzip := flags.contains "--no-unzip"
  let ignore_default := flags.contains "--ignore-default"
  let fe := (fetchAll w repo_path).1
  let downloaded := (fetchAll w repo_path).2
  let pre := Ev.msg ("Fetching repo: " ++ repo_path) :: fe
  if downloaded.isEmpty then
    (pre ++ [Ev.msg "No files found in repo."], Outcome.exited 1)
  else
    let ex := if no_unzip then [] else extractPhase w downloaded
    if (pySplit repo_path).length ≠ 2 then
      (pre ++ ex, Outcome.exception "ValueError")
    else
      let reponame := (pySplit repo_path).getD 1 ""
      if ignore_default && downloaded.contains "install.sh" then
        (pre ++ ex
          ++ [Ev.msg "Running install.sh ...", Ev.chmodScript, Ev.runScript,
            Ev.msg "Done."],
          Outcome.normal)
      else
        (pre ++ ex
          ++ Ev.msg "Using automatic language detection..."
            :: (autoPhase w reponame).1,
          (autoPhase w reponame).2)

/-- `main()` of v1 (src/FileShare/fileshare.py lines 158-188): identical
structure to the v2 `main`. -/
def mainF (w : World) (fs : String → Bool) (euid : Nat) (argv : List String) :
    List Ev × Outcome :=
  if euid ≠ 0 then
    ([Ev.msg "Please run with sudo."], Outcome.exited 1)
  else if argv.length < 2 ∨ argv.contains "--help" = true then
    ([Ev.msg "<help text>"], Outcome.exited 0)
  else
    let command := argv.getD 1 ""
    if ¬ (command = "get" ∨ command = "remove" ∨ command = "clean") then
      ([Ev.msg ("Unknown command: " ++ command), Ev.msg "<help text>"],
        Outcome.exited 1)
    else if command = "clean" then
      clean_tempfolder w
    else if argv.length < 3 then
      ([Ev.msg "Error: Missing repo path.", Ev.msg "<help text>"],
        Outcome.exited 1)
    else
      let repo_path := stripSlashes (argv.getD 2 "")
      let flags := argv.drop 3
      if command = "get" then get_repo w repo_path flags
      else ((remove_repo w fs repo_path).evs, (remove_repo w fs repo_path).outcome)

end V1

/-- A world in which only `install.sh` returns HTTP 200, every shell command
succeeds, and the script itself exits with status 1. -/
def wScriptFail : World :=
  ⟨fun f => if f = "install.sh" then 200 else 404, fun _ => false, fun _ => 0,
    1, "", fun _ => false, fun _ => false, fun _ => false, fun _ => true⟩

/-- A world in which only `install.sh` returns HTTP 200, the workspace
contains a Go entry marker, and everything succeeds. -/
def wScriptGo : World :=
  ⟨fun f => if f = "install.sh" then 200 else 404, fun _ => false, fun _ => 0,
    0, "", fun f => f = "main.go", fun _ => true, fun _ => false, fun _ => true⟩

/-- The scenario of the spec example: only `root.zip` and `install.sh` return
HTTP 200; everything succeeds. -/
def wRootScript : World :=
  ⟨fun f => if f = "root.zip" ∨ f = "install.sh" then 200 else 404,
    fun _ => false, fun _ => 0, 0, "", fun _ => false, fun _ => false,
    fun _ => false, fun _ => true⟩

/-- A world in which only `main.zip` returns HTTP 200. -/
def wMainOnly : World :=
  ⟨fun f => if f = "main.zip" then 200 else 404, fun _ => false, fun _ => 0,
    0, "", fun _ => false, fun _ => false, fun _ => false, fun _ => true⟩

/-- A world for a fully successful automatic install: `app.zip` returns HTTP
200, extraction reveals a Go entry marker, every command succeeds and the
built binary exists. -/
def wGoInstall : World :=
  ⟨fun f => if f = "app.zip" then 200 else 404, fun _ => false, fun _ => 0,
    0, "", fun f => f = "main.go", fun _ => true, fun _ => false, fun _ => true⟩

/-- A world in which every HTTP probe misses and every command succeeds. -/
def wEmpty : World :=
  ⟨fun _ => 404, fun _ => false, fun _ => 0, 0, "", fun _ => false,
    fun _ => false, fun _ => false, fun _ => true⟩

/-- A world in which both a Python and a Go entry marker are present (the
priority-override test), with every command succeeding. -/
def wPyGo : World :=
  ⟨fun f => if f = "app.zip" then 200 else 404, fun _ => false, fun _ => 0,
    0, "", fun f => f = "main.py" ∨ f = "main.go", fun _ => false,
    fun _ => false, fun _ => true⟩

/-- A filesystem in which the package `tool` is installed at both canonical
locations. -/
def fsTool : String → Bool :=
  fun p => p = "/usr/local/bin/tool" ∨ p = "/usr/share/tool"

/-! ### General helper lemmas -/

theorem data_append_eq (s t : String) : (s ++ t).data = s.data ++ t.data := by
  cases s; cases t; rfl

theorem isPrefixOf_append_self (l m : List Char) :
    List.isPrefixOf l (l ++ m) = true := by
  induction l with
  | nil => simp [List.isPrefixOf]
  | cons c cs ih => simp [List.isPrefixOf, ih]

/-- A string that extends `a` cannot equal a string `b` that `a` does not
head: the workhorse for telling command strings with variable tails apart. -/
theorem append_string_ne (a p b : String)
    (h : List.isPrefixOf a.data b.data = false) : ¬ (a ++ p = b) := by
  intro he
  have hd : a.data ++ p.data = b.data := by
    rw [← data_append_eq]; exact congrArg String.data he
  rw [← hd, isPrefixOf_append_self] at h
  exact Bool.noConfusion h

theorem not_mem_of_all_true {p : Ev → Bool} {l : List Ev} (h : l.all p = true)
    {e : Ev} (he : p e = false) : e ∉ l := by
  intro hm
  have hp := (List.all_eq_true.mp h) e hm
  rw [he] at hp
  exact Bool.noConfusion hp

theorem isEmpty_false_of_contains {l : List String} {a : String}
    (h : l.contains a = true) : l.isEmpty = false := by
  cases l with
  | nil => simp [List.contains] at h
  | cons x xs => rfl

theorem splitAux_length (l acc : List Char) :
    (splitAux l acc).length = l.count '/' + 1 := by
  induction l generalizing acc with
  | nil => simp [splitAux]
  | cons c cs ih =>
    by_cases hc : c = '/'
    · subst hc
      simp [splitAux, List.count_cons, ih]
    · simp [splitAux, hc, List.count_cons, ih]

/-- The number of segments of a Python `split("/")` is one more than the
number of separators. -/
theorem pySplit_length (s : String) :
    (pySplit s).length = s.data.count '/' + 1 := splitAux_length s.data []

theorem hasSlash_false_of_count_zero {s : String} (h : s.data.count '/' = 0) :
    hasSlash s = false := by
  unfold hasSlash
  rw [← Bool.not_eq_true]
  intro hc
  rw [List.contains_eq_any_beq] at hc
  rcases List.any_eq_true.mp hc with ⟨c, hcm, hcb⟩
  have hce : c = '/' := (eq_of_beq hcb).symm
  subst hce
  have := List.count_pos_iff.mpr hcm
  omega

theorem hasSlash_true_of_count {s : String} {n : Nat}
    (h : s.data.count '/' = n + 1) : hasSlash s = true := by
  unfold hasSlash
  rw [List.contains_eq_any_beq, List.any_eq_true]
  have hpos : 0 < s.data.count '/' := by omega
  exact ⟨'/', List.count_pos_iff.mp hpos, by simp⟩

/-! ### Fetch- and extraction-trace shape lemmas -/

theorem fetchOne_all_fetchish (w : World) (rp f : String) :
    ((fetchOne w rp f).1.all fetchish) = true := by
  simp only [fetchOne]
  split
  · rfl
  · split <;> rfl

theorem fetchAll_all_fetchish (w : World) (rp : String) :
    ((fetchAll w rp).1.all fetchish) = true := by
  simp only [fetchAll]
  simp [List.all_append, fetchOne_all_fetchish]

theorem extractPhase_all_extractish (w : World) (d : List String) :
    ((extractPhase w d).all extractish) = true := by
  simp only [extractPhase, extract_zip]
  split_ifs <;> rfl

theorem httpGet_mem_fetchOne (w : World) (rp f : String) :
    Ev.httpGet (candidateUrl rp f) ∈ (fetchOne w rp f).1 := by
  simp only [fetchOne]
  split
  · simp
  · split <;> simp

theorem httpGet_mem_fetchAll (w : World) (rp : String) {f : String}
    (h : f ∈ files_to_try) :
    Ev.httpGet (candidateUrl rp f) ∈ (fetchAll w rp).1 := by
  simp only [files_to_try, List.mem_cons, List.not_mem_nil, or_false] at h
  rcases h with rfl | rfl | rfl | rfl <;>
    simp [fetchAll, List.mem_append, httpGet_mem_fetchOne]

theorem cmd_not_mem_fetchAll (w : World) (rp c : String) :
    Ev.cmd c ∉ (fetchAll w rp).1 :=
  not_mem_of_all_true (fetchAll_all_fetchish w rp) rfl

theorem detect_not_mem_fetchAll (w : World) (rp : String) :
    Ev.detect ∉ (fetchAll w rp).1 :=
  not_mem_of_all_true (fetchAll_all_fetchish w rp) rfl

theorem runScript_not_mem_fetchAll (w : World) (rp : String) :
    Ev.runScript ∉ (fetchAll w rp).1 :=
  not_mem_of_all_true (fetchAll_all_fetchish w rp) rfl

theorem chmodScript_not_mem_fetchAll (w : World) (rp : String) :
    Ev.chmodScript ∉ (fetchAll w rp).1 :=
  not_mem_of_all_true (fetchAll_all_fetchish w rp) rfl

theorem extractZip_not_mem_fetchAll (w : World) (rp f : String) :
    Ev.extractZip f ∉ (fetchAll w rp).1 :=
  not_mem_of_all_true (fetchAll_all_fetchish w rp) rfl

theorem cmd_not_mem_extractPhase (w : World) (d : List String) (c : String) :
    Ev.cmd c ∉ extractPhase w d :=
  not_mem_of_all_true (extractPhase_all_extractish w d) rfl

theorem detect_not_mem_extractPhase (w : World) (d : List String) :
    Ev.detect ∉ extractPhase w d :=
  not_mem_of_all_true (extractPhase_all_extractish w d) rfl

theorem runScript_not_mem_extractPhase (w : World) (d : List String) :
    Ev.runScript ∉ extractPhase w d :=
  not_mem_of_all_true (extractPhase_all_extractish w d) rfl

theorem chmodScript_not_mem_extractPhase (w : World) (d : List String) :
    Ev.chmodScript ∉ extractPhase w d :=
  not_mem_of_all_true (extractPhase_all_extractish w d) rfl

/-! ### Detect/build/install trace shape lemmas -/

theorem V2_detect_all_autoish (w : World) (r : String) :
    ((V2.detect_and_build w r).1.all autoish) = true := by
  simp only [V2.detect_and_build, run]
  split_ifs <;> rfl

theorem V1_detect_all_autoish (w : World) :
    ((V1.detect_and_build w).1.all autoish) = true := by
  simp only [V1.detect_and_build, run]
  split_ifs <;> rfl

theorem V2_install_all_autoish (w : World) (bp r : String) :
    ((V2.install_binary w bp r).1.all autoish) = true := by
  simp only [V2.install_binary, run]
  split_ifs <;> rfl

theorem V1_install_all_autoish (w : World) (bp r : String) :
    ((V1.install_binary w bp r).1.all autoish) = true := by
  simp only [V1.install_binary, run]
  split_ifs <;> rfl

theorem detect_mem_V2_detect_and_build (w : World) (r : String) :
    Ev.detect ∈ (V2.detect_and_build w r).1 := by
  simp only [V2.detect_and_build, run]
  split_ifs <;> simp

theorem detect_mem_V1_detect_and_build (w : World) :
    Ev.detect ∈ (V1.detect_and_build w).1 := by
  simp only [V1.detect_and_build, run]
  split_ifs <;> simp

theorem V2_detect_no_rm (w : World) (r : String) :
    Ev.cmd rm_tmp_cmd ∉ (V2.detect_and_build w r).1 := by
  have hpy : ∀ p : String,
      ¬(rm_tmp_cmd = "sudo pyinstaller --onefile main.py --name " ++ p) :=
    fun p h => append_string_ne _ p rm_tmp_cmd (by decide) h.symm
  have hgo : ∀ p : String, ¬(rm_tmp_cmd = "go build -o " ++ p) :=
    fun p h => append_string_ne _ p rm_tmp_cmd (by decide) h.symm
  have hgpp : ∀ p : String, ¬(rm_tmp_cmd = "g++ main.cpp -o " ++ p) :=
    fun p h => append_string_ne _ p rm_tmp_cmd (by decide) h.symm
  have hpip : ¬(rm_tmp_cmd = "pip install pyinstaller") := by decide
  have hmake : ¬(rm_tmp_cmd = "make") := by decide
  simp only [V2.detect_and_build, V2.pyinstaller_cmd, run]
  split_ifs <;> simp_all [List.mem_append] <;>
    first
      | exact hpy _
      | exact hgo _

theorem V2_install_no_rm (w : World) (bp r : String) :
    Ev.cmd rm_tmp_cmd ∉ (V2.install_binary w bp r).1 := by
  have hch : ∀ p : String, ¬(rm_tmp_cmd = "chmod +x " ++ p) :=
    fun p h => append_string_ne _ p rm_tmp_cmd (by decide) h.symm
  have hcp : ∀ p : String, ¬(rm_tmp_cmd = "sudo cp " ++ p) :=
    fun p h => append_string_ne _ p rm_tmp_cmd (by decide) h.symm
  have hmk : ∀ p : String, ¬(rm_tmp_cmd = "sudo mkdir -p " ++ p) :=
    fun p h => append_string_ne _ p rm_tmp_cmd (by decide) h.symm
  simp only [V2.install_binary, run]
  split_ifs <;> simp_all [List.mem_append] <;>
    first
      | exact hch _
      | exact hcp _
      | exact hmk _
      | exact ⟨hcp _, hcp _⟩

/-! ### get_repo branch lemmas -/

theorem V2_get_repo_mem_of_fetch (w : World) (rp : String) (flags : List String)
    {e : Ev} (he : e ∈ (fetchAll w rp).1) : e ∈ (V2.get_repo w rp flags).1 := by
  simp only [V2.get_repo]
  repeat' split
  all_goals simp [he]

theorem V1_get_repo_mem_of_fetch (w : World) (rp : String) (flags : List String)
    {e : Ev} (he : e ∈ (fetchAll w rp).1) : e ∈ (V1.get_repo w rp flags).1 := by
  simp only [V1.get_repo]
  repeat' split
  all_goals simp [he]

/-- The v2 fetch-nothing branch: exit 1 right after the fetch loop. -/
theorem V2_get_repo_empty (w : World) (rp : String) (flags : List String)
    (hE : (fetchAll w rp).2 = []) :
    V2.get_repo w rp flags =
      ((Ev.msg ("Fetching repo: " ++ rp) :: (fetchAll w rp).1)
        ++ [Ev.msg "No files found in repo."], Outcome.exited 1) := by
  simp [V2.get_repo, hE]

/-- The v1 fetch-nothing branch: exit 1 right after the fetch loop. -/
theorem V1_get_repo_empty (w : World) (rp : String) (flags : List String)
    (hE : (fetchAll w rp).2 = []) :
    V1.get_repo w rp flags =
      ((Ev.msg ("Fetching repo: " ++ rp) :: (fetchAll w rp).1)
        ++ [Ev.msg "No files found in repo."], Outcome.exited 1) := by
  simp [V1.get_repo, hE]

/-- The v2 `--no-unzip` branch: return right after the fetch loop. -/
theorem V2_get_repo_no_unzip (w : World) (rp : String) (flags : List String)
    (hnu : "--no-unzip" ∈ flags)
    (hne : (fetchAll w rp).2 ≠ []) :
    V2.get_repo w rp flags =
      ((Ev.msg ("Fetching repo: " ++ rp) :: (fetchAll w rp).1)
        ++ [Ev.msg "--no-unzip used. Skipping extraction and install."],
        Outcome.normal) := by
  simp [V2.get_repo, hnu, hne]

/-- The v2 install-script branch: extraction still happens, then the script
runs; no detector, no build, and a normal return whatever the script exit
status. -/
theorem V2_get_repo_script (w : World) (rp : String) (flags : List String)
    (hd : "install.sh" ∈ (fetchAll w rp).2)
    (hnu : "--no-unzip" ∉ flags)
    (hp : (pySplit rp).length = 2) :
    V2.get_repo w rp flags =
      ((Ev.msg ("Fetching repo: " ++ rp) :: (fetchAll w rp).1)
        ++ extractPhase w (fetchAll w rp).2
        ++ [Ev.msg "install.sh found. Running and skipping default installer protocol...",
          Ev.chmodScript, Ev.runScript]
        ++ (if w.scriptCode = 0 then []
          else [Ev.msg "install.sh failed. Aborting."]),
        Outcome.normal) := by
  have hne := List.ne_nil_of_mem hd
  simp [V2.get_repo, hne, hnu, hp, hd]

/-- The v1 install-script branch (requires `--ignore-default`): the script
runs with its exit status unchecked, then a normal return. -/
theorem V1_get_repo_script (w : World) (rp : String) (flags : List String)
    (hd : "install.sh" ∈ (fetchAll w rp).2)
    (hig : "--ignore-default" ∈ flags)
    (hp : (pySplit rp).length = 2) :
    V1.get_repo w rp flags =
      ((Ev.msg ("Fetching repo: " ++ rp) :: (fetchAll w rp).1)
        ++ (if flags.contains "--no-unzip" then []
          else extractPhase w (fetchAll w rp).2)
        ++ [Ev.msg "Running install.sh ...", Ev.chmodScript, Ev.runScript,
          Ev.msg "Done."],
        Outcome.normal) := by
  have hne := List.ne_nil_of_mem hd
  simp [V1.get_repo, hne, hig, hp, hd]

/-- The v2 malformed-identifier branch: the `ValueError` of the split occurs
after the fetch and extraction phases. -/
theorem V2_get_repo_parse_exc (w : World) (rp : String) (flags : List String)
    (hne : (fetchAll w rp).2 ≠ [])
    (hnu : "--no-unzip" ∉ flags)
    (hp : (pySplit rp).length ≠ 2) :
    V2.get_repo w rp flags =
      ((Ev.msg ("Fetching repo: " ++ rp) :: (fetchAll w rp).1)
        ++ extractPhase w (fetchAll w rp).2,
        Outcome.exception "ValueError") := by
  simp [V2.get_repo, hne, hnu, hp]

/-- The v1 malformed-identifier branch: the `ValueError` of the split occurs
after the fetch phase (and the extraction phase unless `--no-unzip`), for
every flag combination. -/
theorem V1_get_repo_parse_exc (w : World) (rp : String) (flags : List String)
    (hne : (fetchAll w rp).2 ≠ [])
    (hp : (pySplit rp).length ≠ 2) :
    V1.get_repo w rp flags =
      ((Ev.msg ("Fetching repo: " ++ rp) :: (fetchAll w rp).1)
        ++ (if flags.contains "--no-unzip" then []
          else extractPhase w (fetchAll w rp).2),
        Outcome.exception "ValueError") := by
  simp [V1.get_repo, hne, hp]

/-- The v2 automatic-installer branch equality. -/
theorem V2_get_repo_auto (w : World) (rp : String) (flags : List String)
    (hne : (fetchAll w rp).2 ≠ [])
    (hnu : "--no-unzip" ∉ flags)
    (hp : (pySplit rp).length = 2)
    (hd : "install.sh" ∉ (fetchAll w rp).2) :
    V2.get_repo w rp flags =
      ((Ev.msg ("Fetching repo: " ++ rp) :: (fetchAll w rp).1)
        ++ extractPhase w (fetchAll w rp).2
        ++ Ev.msg "No install.sh found. Using automatic installer protocol..."
          :: (V2.autoPhase w ((pySplit rp).getD 1 "")).1,
        (V2.autoPhase w ((pySplit rp).getD 1 "")).2) := by
  simp [V2.get_repo, hne, hnu, hp, hd]

/-- The v1 automatic-detection branch equality: taken whenever
`--ignore-default` is absent, even if `install.sh` was retrieved and even
under `--no-unzip`. -/
theorem V1_get_repo_auto (w : World) (rp : String) (flags : List String)
    (hne : (fetchAll w rp).2 ≠ [])
    (hp : (pySplit rp).length = 2)
    (hig : "--ignore-default" ∉ flags ∨ "install.sh" ∉ (fetchAll w rp).2) :
    V1.get_repo w rp flags =
      ((Ev.msg ("Fetching repo: " ++ rp) :: (fetchAll w rp).1)
        ++ (if flags.contains "--no-unzip" then []
          else extractPhase w (fetchAll w rp).2)
        ++ Ev.msg "Using automatic language detection..."
          :: (V1.autoPhase w ((pySplit rp).getD 1 "")).1,
        (V1.autoPhase w ((pySplit rp).getD 1 "")).2) := by
  rcases hig with hig | hig <;> simp [V1.get_repo, hne, hp, hig]

/-- Decomposition of the v2 automatic-installer phase: the detector trace
followed by an install tail of detect/print/command events that contains no
workspace-deletion command. -/
theorem V2_autoPhase_decomp (w : World) (rn : String) :
    ∃ tail, (V2.autoPhase w rn).1 = (V2.detect_and_build w rn).1 ++ tail
      ∧ tail.all autoish = true
      ∧ Ev.cmd rm_tmp_cmd ∉ tail := by
  simp only [V2.autoPhase]
  rcases hdb : V2.detect_and_build w rn with ⟨de, r⟩
  rcases r with o | obin
  · exact ⟨[], by simp, rfl, by simp⟩
  · rcases obin with _ | bp
    · exact ⟨[Ev.msg "Build failed or binary not found.", Ev.msg "Done."],
        by simp, rfl, by simp⟩
    · by_cases hb : w.buildOut bp = true
      · rcases hib : V2.install_binary w bp rn with ⟨ie, ri⟩
        have hia : ie.all autoish = true := by
          have h := V2_install_all_autoish w bp rn
          rw [hib] at h; exact h
        have hirm : Ev.cmd rm_tmp_cmd ∉ ie := by
          have h := V2_install_no_rm w bp rn
          rw [hib] at h; exact h
        rcases ri with o | u
        · exact ⟨ie, by simp [hb, hib], hia, hirm⟩
        · exact ⟨ie ++ [Ev.msg "Done."], by simp [hb, hib],
            by simp [List.all_append, hia, autoish],
            by simp [List.mem_append, hirm]⟩
      · have hb2 : w.buildOut bp = false := by
          rw [← Bool.not_eq_true]; exact hb
        exact ⟨[Ev.msg "Build failed or binary not found.", Ev.msg "Done."],
          by simp [hb2], rfl, by simp⟩

/-- Decomposition of the v1 automatic-detection phase: the detector trace
followed by an install tail of detect/print/command events. -/
theorem V1_autoPhase_decomp (w : World) (rn : String) :
    ∃ tail, (V1.autoPhase w rn).1 = (V1.detect_and_build w).1 ++ tail
      ∧ tail.all autoish = true := by
  simp only [V1.autoPhase]
  rcases hdb : V1.detect_and_build w with ⟨de, r⟩
  rcases r with o | obin
  · exact ⟨[], by simp, rfl⟩
  · rcases obin with _ | bp
    · exact ⟨[Ev.msg "Build failed or output binary not found.", Ev.msg "Done."],
        by simp, rfl⟩
    · by_cases hb : w.buildOut bp = true
      · rcases hib : V1.install_binary w bp rn with ⟨ie, ri⟩
        have hia : ie.all autoish = true := by
          have h := V1_install_all_autoish w bp rn
          rw [hib] at h; exact h
        rcases ri with o | u
        · exact ⟨ie, by simp [hb, hib], hia⟩
        · exact ⟨ie ++ [Ev.msg "Done."], by simp [hb, hib],
            by simp [List.all_append, hia, autoish]⟩
      · have hb2 : w.buildOut bp = false := by
          rw [← Bool.not_eq_true]; exact hb
        exact ⟨[Ev.msg "Build failed or output binary not found.", Ev.msg "Done."],
          by simp [hb2], rfl⟩

/-! ### C3: detector priority order -/

/-- C3: for every workspace content, `detect_and_build` (in both variants)
selects the first matching strategy in the fixed priority order `main.py`,
`main.go`, `main.cpp`, `Makefile`: under successful toolchain invocations its
whole trace consists exactly of the toolchain commands of the chosen strategy (so
no later-priority toolchain is ever invoked), and when none of the four
markers is present it reports no artifact and runs no build command. -/
theorem detector_priority_order (w : World) (reponame : String)
    (hall : ∀ c, w.cmdCode c = 0) :
    ((w.marker "main.py" = true →
      V2.detect_and_build w reponame =
        ([Ev.detect, Ev.msg "Detected Python app. Building with PyInstaller...",
          Ev.cmd "pip install pyinstaller", Ev.cmd (V2.pyinstaller_cmd w reponame)],
          Except.ok (if w.buildOut (V2.dist_path reponame) then
            some (V2.dist_path reponame) else none)))
    ∧ (w.marker "main.py" = false → w.marker "main.go" = true →
      V2.detect_and_build w reponame =
        ([Ev.detect, Ev.msg "Detected Go app. Building with go build...",
          Ev.cmd ("go build -o " ++ reponame ++ " main.go")],
          Except.ok (some reponame)))
    ∧ (w.marker "main.py" = false → w.marker "main.go" = false →
        w.marker "main.cpp" = true →
      V2.detect_and_build w reponame =
        ([Ev.detect, Ev.msg "Detected C++ app. Building with g++...",
          Ev.cmd ("g++ main.cpp -o " ++ reponame)],
          Except.ok (some reponame)))
    ∧ (w.marker "main.py" = false → w.marker "main.go" = false →
        w.marker "main.cpp" = false → w.marker "Makefile" = true →
      V2.detect_and_build w reponame =
        ([Ev.detect, Ev.msg "Makefile found. Running make...", Ev.cmd "make"],
          Except.ok none))
    ∧ (w.marker "main.py" = false → w.marker "main.go" = false →
        w.marker "main.cpp" = false → w.marker "Makefile" = false →
      V2.detect_and_build w reponame =
        ([Ev.detect,
          Ev.msg "No known entry point found. Please consider checking the repository source."],
          Except.ok none)))
    ∧ ((w.marker "main.py" = true →
      V1.detect_and_build w =
        ([Ev.detect, Ev.msg "Detected Python app. Building with PyInstaller...",
          Ev.cmd "pip install pyinstaller", Ev.cmd "pyinstaller --onefile main.py"],
          Except.ok (some "dist/main")))
    ∧ (w.marker "main.py" = false → w.marker "main.go" = true →
      V1.detect_and_build w =
        ([Ev.detect, Ev.msg "Detected Go app. Building with go build...",
          Ev.cmd "go build -o app_bin main.go"],
          Except.ok (some "app_bin")))
    ∧ (w.marker "main.py" = false → w.marker "main.go" = false →
        w.marker "main.cpp" = true →
      V1.detect_and_build w =
        ([Ev.detect, Ev.msg "Detected C++ app. Building with g++...",
          Ev.cmd "g++ main.cpp -o app_bin"],
          Except.ok (some "app_bin")))
    ∧ (w.marker "main.py" = false → w.marker "main.go" = false →
        w.marker "main.cpp" = false → w.marker "Makefile" = true →
      V1.detect_and_build w =
        ([Ev.detect, Ev.msg "Makefile found. Running make...", Ev.cmd "make"],
          Except.ok none))
    ∧ (w.marker "main.py" = false → w.marker "main.go" = false →
        w.marker "main.cpp" = false → w.marker "Makefile" = false →
      V1.detect_and_build w =
        ([Ev.detect,
          Ev.msg "No known entry point found. Please consider using --no-unzip or --ignore-default."],
          Except.ok none))) := by
  refine ⟨⟨?_, ?_, ?_, ?_, ?_⟩, ⟨?_, ?_, ?_, ?_, ?_⟩⟩ <;> intros <;>
    (simp_all [V2.detect_and_build, V1.detect_and_build, run] <;> (split <;> rfl))

/-- Witness for C3: with both `main.py` and `main.go` present, only the
Python toolchain is invoked, in both variants. -/
theorem detector_priority_order_witness :
    V2.detect_and_build wPyGo "tool" =
      ([Ev.detect, Ev.msg "Detected Python app. Building with PyInstaller...",
        Ev.cmd "pip install pyinstaller",
        Ev.cmd "sudo pyinstaller --onefile main.py --name tool "],
        Except.ok none) ∧
      V1.detect_and_build wPyGo =
        ([Ev.detect, Ev.msg "Detected Python app. Building with PyInstaller...",
          Ev.cmd "pip install pyinstaller", Ev.cmd "pyinstaller --onefile main.py"],
          Except.ok (some "dist/main")) := by
  have h := detector_priority_order wPyGo "tool" (fun c => rfl)
  constructor
  · rw [h.1.1 (by decide)]
    rfl
  · rw [h.2.1 (by decide)]

/-! ### C9: remove-side name resolution -/

/-- C9: `remove_repo` accepts a bare package name (no separator: the whole
input is the package name) or an owner/name pair (one separator: the segment
after the separator is the package name); with two or more separators it
raises `ValueError` before touching any path, leaving the filesystem
unchanged and its trace empty. -/
theorem remove_name_resolution (w : World) (fs : String → Bool) (x : String) :
    (x.data.count '/' = 0 → remove_repo w fs x = removeCore w fs x) ∧
    (x.data.count '/' = 1 →
      remove_repo w fs x = removeCore w fs ((pySplit x).getD 1 "")) ∧
    (2 ≤ x.data.count '/' →
      remove_repo w fs x = ⟨fs, [], Outcome.exception "ValueError"⟩) := by
  refine ⟨?_, ?_, ?_⟩
  · intro h
    have hs := hasSlash_false_of_count_zero h
    simp [remove_repo, hs]
  · intro h
    have hs := hasSlash_true_of_count (n := 0) h
    have hl : (pySplit x).length = 2 := by rw [pySplit_length, h]
    simp [remove_repo, hs, hl]
  · intro h
    obtain ⟨n, hn⟩ : ∃ n, x.data.count '/' = n + 1 :=
      ⟨_, (Nat.succ_pred_eq_of_pos (by omega)).symm⟩
    have hs := hasSlash_true_of_count hn
    have hl : (pySplit x).length ≠ 2 := by rw [pySplit_length]; omega
    simp [remove_repo, hs, hl]

/-- Witness for C9 at concrete inputs with zero, one and two separators. -/
theorem remove_name_resolution_witness :
    remove_repo wEmpty fsTool "a/b/c" = ⟨fsTool, [], Outcome.exception "ValueError"⟩ ∧
      remove_repo wEmpty fsTool "alice/tool" = removeCore wEmpty fsTool "tool" ∧
      remove_repo wEmpty fsTool "tool" = removeCore wEmpty fsTool "tool" := by
  refine ⟨(remove_name_resolution wEmpty fsTool "a/b/c").2.2 (by decide), ?_,
    (remove_name_resolution wEmpty fsTool "tool").1 (by decide)⟩
  have h := (remove_name_resolution wEmpty fsTool "alice/tool").2.1 (by decide)
  have h2 : (pySplit "alice/tool").getD 1 "" = "tool" := by decide
  rw [h2] at h
  exact h

/-! ### C7: remove is idempotent -/

theorem string_length_append (s t : String) :
    (s ++ t).length = s.length + t.length := by
  have h : (s ++ t).data.length = s.data.length + t.data.length := by
    rw [data_append_eq, List.length_append]
  exact h

theorem bin_ne_share (n : String) :
    ¬ ("/usr/local/bin/" ++ n = "/usr/share/" ++ n) := by
  intro h
  have hl := congrArg String.length h
  rw [string_length_append, string_length_append] at hl
  have h1 : ("/usr/local/bin/" : String).length = 15 := by decide
  have h2 : ("/usr/share/" : String).length = 11 := by decide
  rw [h1, h2] at hl
  omega

/-- After a `removeCore` call that terminates normally, both canonical paths
of the package are absent. -/
theorem removeCore_normal_false (w : World) (fs : String → Bool) (n : String)
    (h : (removeCore w fs n).outcome = Outcome.normal) :
    (removeCore w fs n).fs ("/usr/local/bin/" ++ n) = false ∧
      (removeCore w fs n).fs ("/usr/share/" ++ n) = false := by
  have hns := bin_ne_share n
  simp only [removeCore] at h ⊢
  split_ifs at h ⊢ <;> simp_all [fsRemove]

/-- A `removeCore` call on a filesystem where both canonical paths are absent
changes nothing, runs no command, and reports both paths as missing. -/
theorem removeCore_absent (w : World) (fs : String → Bool) (n : String)
    (hb : fs ("/usr/local/bin/" ++ n) = false)
    (hs : fs ("/usr/share/" ++ n) = false) :
    removeCore w fs n =
      ⟨fs, [Ev.msg "Binary not found in /usr/local/bin",
        Ev.msg "Share directory not found"], Outcome.normal⟩ := by
  unfold removeCore
  simp [hb, hs]

/-- For inputs with at most one separator, `remove_repo` is `removeCore` on
the resolved package name. -/
theorem remove_repo_eq_removeCore (w : World) (fs : String → Bool) (x : String)
    (hx : x.data.count '/' ≤ 1) :
    remove_repo w fs x = removeCore w fs
      (if x.data.count '/' = 0 then x else (pySplit x).getD 1 "") := by
  by_cases h0 : x.data.count '/' = 0
  · have hs := hasSlash_false_of_count_zero h0
    simp [remove_repo, hs, h0]
  · have h1 : x.data.count '/' = 1 := by omega
    have hs := hasSlash_true_of_count (n := 0) h1
    have hl : (pySplit x).length = 2 := by rw [pySplit_length, h1]
    simp [remove_repo, hs, hl, h0]

/-- C7: `remove` is idempotent.  For every parseable package identifier
(at most one separator), if the first `remove_repo` call terminates normally,
a second call returns the same filesystem unchanged, terminates normally,
runs no command, and merely reports the binary and the data directory as
absent. -/
theorem remove_idempotent (w : World) (fs : String → Bool) (x : String)
    (hx : x.data.count '/' ≤ 1)
    (h1 : (remove_repo w fs x).outcome = Outcome.normal) :
    remove_repo w (remove_repo w fs x).fs x =
      ⟨(remove_repo w fs x).fs,
        [Ev.msg "Binary not found in /usr/local/bin",
          Ev.msg "Share directory not found"],
        Outcome.normal⟩ := by
  rw [remove_repo_eq_removeCore w fs x hx] at h1 ⊢
  rw [remove_repo_eq_removeCore w _ x hx]
  have hf := removeCore_normal_false w fs _ h1
  exact removeCore_absent w _ _ hf.1 hf.2

/-- Witness for C7: removing the installed package `tool` twice; the second
call reports both locations absent and leaves the filesystem as it was. -/
theorem remove_idempotent_witness :
    remove_repo wEmpty (remove_repo wEmpty fsTool "alice/tool").fs "alice/tool" =
      ⟨(remove_repo wEmpty fsTool "alice/tool").fs,
        [Ev.msg "Binary not found in /usr/local/bin",
          Ev.msg "Share directory not found"],
        Outcome.normal⟩ :=
  remove_idempotent wEmpty fsTool "alice/tool" (by decide) (by decide)

/-! ### C10: root is required before anything else -/

/-- C10: every invocation of `main` (both variants) with a non-zero effective
user id exits with code 1 immediately: the whole trace is the sudo notice, so
no HTTP request, no shell command and no filesystem change happens — for
every argument vector, including `--help`. -/
theorem root_required (w : World) (fs : String → Bool) (euid : Nat)
    (argv : List String) (h : euid ≠ 0) :
    V2.mainF w fs euid argv = ([Ev.msg "Please run with sudo."], Outcome.exited 1) ∧
      V1.mainF w fs euid argv = ([Ev.msg "Please run with sudo."], Outcome.exited 1) := by
  constructor <;> simp [V2.mainF, V1.mainF, h]

/-- Witness for C10: a non-root `--help` invocation exits 1 in both
variants. -/
theorem root_required_witness :
    V2.mainF wEmpty fsTool 1 ["fileshare", "--help"] =
        ([Ev.msg "Please run with sudo."], Outcome.exited 1) ∧
      V1.mainF wEmpty fsTool 1 ["fileshare", "--help"] =
        ([Ev.msg "Please run with sudo."], Outcome.exited 1) :=
  root_required wEmpty fsTool 1 ["fileshare", "--help"] (by decide)

/-! ### C1: install-script override of the detector -/

/-- C1 counterexample: in the v1 pipeline, a fetch that retrieved
`install.sh` but runs without `--ignore-default` still invokes the Detector
(a Go marker is present, so the Go toolchain would run) and never runs the
script — so retrieval of the install script does not by itself bypass
Detector/Builder in every pipeline variant. -/
theorem install_script_override_cex :
    "install.sh" ∈ (fetchAll wScriptGo "a/b").2 ∧
      Ev.detect ∈ (V1.get_repo wScriptGo "a/b" []).1 ∧
      Ev.runScript ∉ (V1.get_repo wScriptGo "a/b" []).1 := by
  decide

/-- C1 as amended: in the v2 pipeline a retrieved `install.sh` always runs
and bypasses Detector and Builder entirely — no detector probe and no shell
command at all — regardless of which marker files are present.  In the v1
pipeline this happens exactly when `--ignore-default` is also given; without
that flag the detection phase runs and the script does not. -/
theorem install_script_override :
    (∀ (w : World) (rp : String) (flags : List String),
      "install.sh" ∈ (fetchAll w rp).2 →
      "--no-unzip" ∉ flags →
      (pySplit rp).length = 2 →
      Ev.runScript ∈ (V2.get_repo w rp flags).1 ∧
        Ev.detect ∉ (V2.get_repo w rp flags).1 ∧
        (∀ c, Ev.cmd c ∉ (V2.get_repo w rp flags).1)) ∧
    (∀ (w : World) (rp : String) (flags : List String),
      "install.sh" ∈ (fetchAll w rp).2 →
      "--ignore-default" ∈ flags →
      (pySplit rp).length = 2 →
      Ev.runScript ∈ (V1.get_repo w rp flags).1 ∧
        Ev.detect ∉ (V1.get_repo w rp flags).1 ∧
        (∀ c, Ev.cmd c ∉ (V1.get_repo w rp flags).1)) ∧
    (∀ (w : World) (rp : String) (flags : List String),
      (fetchAll w rp).2 ≠ [] →
      "--ignore-default" ∉ flags →
      (pySplit rp).length = 2 →
      Ev.detect ∈ (V1.get_repo w rp flags).1 ∧
        Ev.runScript ∉ (V1.get_repo w rp flags).1) := by
  refine ⟨?_, ?_, ?_⟩
  · intro w rp flags hd hnu hp
    rw [V2_get_repo_script w rp flags hd hnu hp]
    by_cases hsc : w.scriptCode = 0 <;>
      simp [hsc, List.mem_append, detect_not_mem_fetchAll,
        detect_not_mem_extractPhase, cmd_not_mem_fetchAll,
        cmd_not_mem_extractPhase]
  · intro w rp flags hd hig hp
    rw [V1_get_repo_script w rp flags hd hig hp]
    by_cases hnu : flags.contains "--no-unzip" = true <;>
      simp [hnu, List.mem_append, detect_not_mem_fetchAll,
        detect_not_mem_extractPhase, cmd_not_mem_fetchAll,
        cmd_not_mem_extractPhase]
  · intro w rp flags hne hig hp
    rw [V1_get_repo_auto w rp flags hne hp (Or.inl hig)]
    obtain ⟨tail, htr, hall⟩ := V1_autoPhase_decomp w ((pySplit rp).getD 1 "")
    rw [htr]
    constructor
    · simp [List.mem_append, detect_mem_V1_detect_and_build]
    · have hfe := runScript_not_mem_fetchAll w rp
      have hex := runScript_not_mem_extractPhase w (fetchAll w rp).2
      have hdb : Ev.runScript ∉ (V1.detect_and_build w).1 :=
        not_mem_of_all_true (V1_detect_all_autoish w) rfl
      have htl : Ev.runScript ∉ tail := not_mem_of_all_true hall rfl
      by_cases hnu : flags.contains "--no-unzip" = true <;>
        simp [hnu, List.mem_append, hfe, hex, hdb, htl]

/-- Witness for C1: a v2 fetch that retrieved only `install.sh` runs the
script and emits neither a detector probe nor any shell command. -/
theorem install_script_override_witness :
    Ev.runScript ∈ (V2.get_repo wScriptFail "a/b" []).1 ∧
      Ev.detect ∉ (V2.get_repo wScriptFail "a/b" []).1 ∧
      (∀ c, Ev.cmd c ∉ (V2.get_repo wScriptFail "a/b" []).1) :=
  install_script_override.1 wScriptFail "a/b" [] (by decide) (by decide)
    (by decide)

/-! ### C2: the root.zip + install.sh scenario -/

/-- C2 counterexample: in the spec scenario (only `root.zip` and `install.sh`
return HTTP 200, no `--no-unzip`), v2 takes the install-script path — but
`root.zip` IS extracted, before the script runs, contrary to the claim that
it is never extracted. -/
theorem root_zip_script_scenario_cex :
    (fetchAll wRootScript "alice/tool").2 = ["root.zip", "install.sh"] ∧
      Ev.runScript ∈ (V2.get_repo wRootScript "alice/tool" []).1 ∧
      Ev.extractZip "root.zip" ∈ (V2.get_repo wRootScript "alice/tool" []).1 := by
  decide

/-- C2 as amended: when exactly `root.zip` and `install.sh` are retrieved and
`--no-unzip` is not given, v2 takes the install-script path, no build
strategy is detected or built (no detector probe, no shell command), the get
returns normally — but `root.zip` is extracted before the script runs. -/
theorem root_zip_script_scenario (w : World) (rp : String) (flags : List String)
    (hdl : (fetchAll w rp).2 = ["root.zip", "install.sh"])
    (hnu : "--no-unzip" ∉ flags)
    (hp : (pySplit rp).length = 2) :
    Ev.runScript ∈ (V2.get_repo w rp flags).1 ∧
      Ev.extractZip "root.zip" ∈ (V2.get_repo w rp flags).1 ∧
      Ev.detect ∉ (V2.get_repo w rp flags).1 ∧
      (∀ c, Ev.cmd c ∉ (V2.get_repo w rp flags).1) ∧
      (V2.get_repo w rp flags).2 = Outcome.normal := by
  have hd : "install.sh" ∈ (fetchAll w rp).2 := by rw [hdl]; simp
  have hex : Ev.extractZip "root.zip" ∈ extractPhase w (fetchAll w rp).2 := by
    rw [hdl]
    by_cases hz : w.zipOk "root.zip" = true <;>
      simp [extractPhase, tmpHas, extract_zip, hz, List.mem_append]
  rw [V2_get_repo_script w rp flags hd hnu hp]
  by_cases hsc : w.scriptCode = 0 <;>
    simp [hsc, List.mem_append, hex, detect_not_mem_fetchAll,
      detect_not_mem_extractPhase, cmd_not_mem_fetchAll,
      cmd_not_mem_extractPhase]

/-- Witness for C2 at the concrete scenario world. -/
theorem root_zip_script_scenario_witness :
    Ev.runScript ∈ (V2.get_repo wRootScript "a/b" []).1 ∧
      Ev.extractZip "root.zip" ∈ (V2.get_repo wRootScript "a/b" []).1 ∧
      Ev.detect ∉ (V2.get_repo wRootScript "a/b" []).1 ∧
      (∀ c, Ev.cmd c ∉ (V2.get_repo wRootScript "a/b" []).1) ∧
      (V2.get_repo wRootScript "a/b" []).2 = Outcome.normal :=
  root_zip_script_scenario wRootScript "a/b" [] (by decide) (by decide)
    (by decide)

/-! ### C4: malformed identifiers are not rejected before the fetch -/

/-- C4 counterexample: the identifier `alice` has no separator, yet the get
operation issues the HTTP probe (here shown for `main.zip`) — and, with
`--no-unzip`, it does not fail at all: the claim that parsing fails before
any HTTP request is false. -/
theorem parse_after_fetch_cex :
    (pySplit "alice").length ≠ 2 ∧
      Ev.httpGet (candidateUrl "alice" "main.zip") ∈
        (V2.get_repo wMainOnly "alice" ["--no-unzip"]).1 ∧
      (V2.get_repo wMainOnly "alice" ["--no-unzip"]).2 = Outcome.normal := by
  decide

/-- C4 as amended: identifiers lacking exactly one separator are not rejected
before the fetch.  Both variants issue all four candidate HTTP requests for
every identifier; a malformed identifier then raises `ValueError` at the
split — after fetch (and extraction) — provided at least one candidate was
retrieved and (in v2) `--no-unzip` is absent; with `--no-unzip`, v2 completes
normally with no parse failure at all. -/
theorem parse_after_fetch :
    (∀ (w : World) (rp : String) (flags : List String) (f : String),
      f ∈ files_to_try →
      Ev.httpGet (candidateUrl rp f) ∈ (V2.get_repo w rp flags).1 ∧
        Ev.httpGet (candidateUrl rp f) ∈ (V1.get_repo w rp flags).1) ∧
    (∀ (w : World) (rp : String) (flags : List String),
      (fetchAll w rp).2 ≠ [] → "--no-unzip" ∉ flags →
      (pySplit rp).length ≠ 2 →
      (V2.get_repo w rp flags).2 = Outcome.exception "ValueError") ∧
    (∀ (w : World) (rp : String) (flags : List String),
      (fetchAll w rp).2 ≠ [] → (pySplit rp).length ≠ 2 →
      (V1.get_repo w rp flags).2 = Outcome.exception "ValueError") ∧
    (∀ (w : World) (rp : String) (flags : List String),
      (fetchAll w rp).2 ≠ [] → "--no-unzip" ∈ flags →
      (V2.get_repo w rp flags).2 = Outcome.normal) := by
  refine ⟨?_, ?_, ?_, ?_⟩
  · intro w rp flags f hf
    exact ⟨V2_get_repo_mem_of_fetch w rp flags (httpGet_mem_fetchAll w rp hf),
      V1_get_repo_mem_of_fetch w rp flags (httpGet_mem_fetchAll w rp hf)⟩
  · intro w rp flags hne hnu hp
    rw [V2_get_repo_parse_exc w rp flags hne hnu hp]
  · intro w rp flags hne hp
    rw [V1_get_repo_parse_exc w rp flags hne hp]
  · intro w rp flags hne hnu
    rw [V2_get_repo_no_unzip w rp flags hnu hne]

/-- Witness for C4: the malformed identifier `alice` with a non-empty fetch
raises the split error only after the whole fetch. -/
theorem parse_after_fetch_witness :
    Ev.httpGet (candidateUrl "alice" "install.sh") ∈
        (V2.get_repo wMainOnly "alice" []).1 ∧
      (V2.get_repo wMainOnly "alice" []).2 = Outcome.exception "ValueError" :=
  ⟨(parse_after_fetch.1 wMainOnly "alice" [] "install.sh" (by decide)).1,
    parse_after_fetch.2.1 wMainOnly "alice" [] (by decide) (by decide)
      (by decide)⟩

/-! ### C5: process exit codes -/

/-- C5 counterexample: a complete v2 `main` run (as root) in which the fetch
retrieved only `install.sh` and the script exits with status 1: the script is
run, its failure is only reported, and the process terminates with exit code
0 — not 1 as the claim requires for every failing external command. -/
theorem exit_codes_cex :
    wScriptFail.scriptCode ≠ 0 ∧
      Ev.runScript ∈ (V2.mainF wScriptFail fsTool 0 ["fileshare", "get", "a/b"]).1 ∧
      (V2.mainF wScriptFail fsTool 0 ["fileshare", "get", "a/b"]).2 = Outcome.normal ∧
      procExit (V2.mainF wScriptFail fsTool 0 ["fileshare", "get", "a/b"]).2 = 0 := by
  decide

/-- C5 as amended: the process exits 1 when a fetch retrieves zero candidates
(and then runs no command at all, so nothing is installed), when any
toolchain command launched through `run` returns non-zero, and when the
required repo-path argument is missing; but a non-zero exit of the retrieved
install script does NOT terminate the process with exit code 1 — v2 prints
the failure and the process exits 0 (and v1, under `--ignore-default`, does
not inspect the script status at all). -/
theorem exit_codes :
    (∀ (w : World) (rp : String) (flags : List String),
      (fetchAll w rp).2 = [] →
      (V2.get_repo w rp flags).2 = Outcome.exited 1 ∧
        procExit (V2.get_repo w rp flags).2 = 1 ∧
        (∀ c, Ev.cmd c ∉ (V2.get_repo w rp flags).1)) ∧
    (∀ (w : World) (c : String), w.cmdCode c ≠ 0 →
      (run w c).2 = Except.error (Outcome.exited 1)) ∧
    (∀ (w : World) (fs : String → Bool),
      (V2.mainF w fs 0 ["fileshare", "get"]).2 = Outcome.exited 1 ∧
        (V2.mainF w fs 0 ["fileshare", "remove"]).2 = Outcome.exited 1) ∧
    (∀ (w : World) (rp : String) (flags : List String),
      "install.sh" ∈ (fetchAll w rp).2 → "--no-unzip" ∉ flags →
      (pySplit rp).length = 2 → w.scriptCode ≠ 0 →
      (V2.get_repo w rp flags).2 = Outcome.normal ∧
        procExit (V2.get_repo w rp flags).2 = 0 ∧
        Ev.runScript ∈ (V2.get_repo w rp flags).1 ∧
        Ev.msg "install.sh failed. Aborting." ∈ (V2.get_repo w rp flags).1) ∧
    (∀ (w : World) (rp : String) (flags : List String),
      "install.sh" ∈ (fetchAll w rp).2 → "--ignore-default" ∈ flags →
      (pySplit rp).length = 2 →
      (V1.get_repo w rp flags).2 = Outcome.normal) := by
  refine ⟨?_, ?_, ?_, ?_, ?_⟩
  · intro w rp flags hE
    rw [V2_get_repo_empty w rp flags hE]
    refine ⟨rfl, rfl, ?_⟩
    intro c
    simp [List.mem_append, cmd_not_mem_fetchAll]
  · intro w c hc
    simp [run, hc]
  · intro w fs
    exact ⟨rfl, rfl⟩
  · intro w rp flags hd hnu hp hs
    rw [V2_get_repo_script w rp flags hd hnu hp]
    refine ⟨rfl, rfl, by simp, ?_⟩
    simp [hs, List.mem_append]
  · intro w rp flags hd hig hp
    rw [V1_get_repo_script w rp flags hd hig hp]

/-- Witness for C5 applying the failing-install-script conjunct at the
concrete world. -/
theorem exit_codes_witness :
    (V2.get_repo wScriptFail "a/b" []).2 = Outcome.normal ∧
      procExit (V2.get_repo wScriptFail "a/b" []).2 = 0 ∧
      Ev.runScript ∈ (V2.get_repo wScriptFail "a/b" []).1 ∧
      Ev.msg "install.sh failed. Aborting." ∈ (V2.get_repo wScriptFail "a/b" []).1 :=
  exit_codes.2.2.2.1 wScriptFail "a/b" [] (by decide) (by decide) (by decide)
    (by decide)

/-! ### C6: what --no-unzip skips -/

/-- C6 counterexample: in the v1 pipeline, `--no-unzip` skips only the
extraction, not the detect/build/install phase: with a Go marker present the
detector still runs and the Go toolchain is still invoked. -/
theorem no_unzip_skips_cex :
    Ev.detect ∈ (V1.get_repo wScriptGo "a/b" ["--no-unzip"]).1 ∧
      Ev.cmd "go build -o app_bin main.go" ∈
        (V1.get_repo wScriptGo "a/b" ["--no-unzip"]).1 := by
  decide

/-- C6 as amended: in v2, `--no-unzip` makes `get` stop right after the
fetch — no extraction, no detector probe, no script run, no shell command,
normal return, leaving only the raw fetched candidates in the workspace.  In
v1, `--no-unzip` skips only the extraction loop; the detect/build/install
phase still runs (whenever `--ignore-default` is absent the detector is
invoked even under `--no-unzip`). -/
theorem no_unzip_skips :
    (∀ (w : World) (rp : String) (flags : List String),
      "--no-unzip" ∈ flags → (fetchAll w rp).2 ≠ [] →
      (V2.get_repo w rp flags).2 = Outcome.normal ∧
        (∀ f, Ev.extractZip f ∉ (V2.get_repo w rp flags).1) ∧
        Ev.detect ∉ (V2.get_repo w rp flags).1 ∧
        Ev.runScript ∉ (V2.get_repo w rp flags).1 ∧
        Ev.chmodScript ∉ (V2.get_repo w rp flags).1 ∧
        (∀ c, Ev.cmd c ∉ (V2.get_repo w rp flags).1)) ∧
    (∀ (w : World) (rp : String) (flags : List String),
      "--no-unzip" ∈ flags → (fetchAll w rp).2 ≠ [] →
      (∀ f, Ev.extractZip f ∉ (V1.get_repo w rp flags).1)) ∧
    (∀ (w : World) (rp : String) (flags : List String),
      (fetchAll w rp).2 ≠ [] → (pySplit rp).length = 2 →
      "--ignore-default" ∉ flags →
      Ev.detect ∈ (V1.get_repo w rp flags).1) := by
  refine ⟨?_, ?_, ?_⟩
  · intro w rp flags hnu hne
    rw [V2_get_repo_no_unzip w rp flags hnu hne]
    refine ⟨rfl, ?_, ?_, ?_, ?_, ?_⟩ <;>
      simp [List.mem_append, extractZip_not_mem_fetchAll,
        detect_not_mem_fetchAll, runScript_not_mem_fetchAll,
        chmodScript_not_mem_fetchAll, cmd_not_mem_fetchAll]
  · intro w rp flags hnu hne f
    have hfe := extractZip_not_mem_fetchAll w rp f
    by_cases hp : (pySplit rp).length = 2
    · by_cases hig : "--ignore-default" ∈ flags
      · by_cases hd : "install.sh" ∈ (fetchAll w rp).2
        · rw [V1_get_repo_script w rp flags hd hig hp]
          simp [hnu, List.mem_append, hfe]
        · rw [V1_get_repo_auto w rp flags hne hp (Or.inr hd)]
          obtain ⟨tail, htr, hall⟩ := V1_autoPhase_decomp w ((pySplit rp).getD 1 "")
          rw [htr]
          have hdb : Ev.extractZip f ∉ (V1.detect_and_build w).1 :=
            not_mem_of_all_true (V1_detect_all_autoish w) rfl
          have htl : Ev.extractZip f ∉ tail := not_mem_of_all_true hall rfl
          simp [hnu, List.mem_append, hfe, hdb, htl]
      · rw [V1_get_repo_auto w rp flags hne hp (Or.inl hig)]
        obtain ⟨tail, htr, hall⟩ := V1_autoPhase_decomp w ((pySplit rp).getD 1 "")
        rw [htr]
        have hdb : Ev.extractZip f ∉ (V1.detect_and_build w).1 :=
          not_mem_of_all_true (V1_detect_all_autoish w) rfl
        have htl : Ev.extractZip f ∉ tail := not_mem_of_all_true hall rfl
        simp [hnu, List.mem_append, hfe, hdb, htl]
    · rw [V1_get_repo_parse_exc w rp flags hne hp]
      simp [hnu, List.mem_append, hfe]
  · intro w rp flags hne hp hig
    rw [V1_get_repo_auto w rp flags hne hp (Or.inl hig)]
    obtain ⟨tail, htr, hall⟩ := V1_autoPhase_decomp w ((pySplit rp).getD 1 "")
    rw [htr]
    simp [List.mem_append, detect_mem_V1_detect_and_build]

/-- Witness for C6: a v2 `--no-unzip` get at a concrete world stops after the
fetch. -/
theorem no_unzip_skips_witness :
    (V2.get_repo wMainOnly "alice/tool" ["--no-unzip"]).2 = Outcome.normal ∧
      (∀ f, Ev.extractZip f ∉ (V2.get_repo wMainOnly "alice/tool" ["--no-unzip"]).1) ∧
      Ev.detect ∉ (V2.get_repo wMainOnly "alice/tool" ["--no-unzip"]).1 ∧
      Ev.runScript ∉ (V2.get_repo wMainOnly "alice/tool" ["--no-unzip"]).1 ∧
      Ev.chmodScript ∉ (V2.get_repo wMainOnly "alice/tool" ["--no-unzip"]).1 ∧
      (∀ c, Ev.cmd c ∉ (V2.get_repo wMainOnly "alice/tool" ["--no-unzip"]).1) :=
  no_unzip_skips.1 wMainOnly "alice/tool" ["--no-unzip"] (by decide) (by decide)

/-! ### C8: workspace deletion after a successful install -/

/-- C8 counterexample: a fully successful v2 automatic install (Go project,
all commands succeed, both copies placed — the `Installed as` report is
emitted and the run ends normally) never issues the workspace-deletion
command `sudo rm -rf /tmp/fsdl`: in v2 the Workspace survives a successful
install. -/
theorem workspace_cleanup_cex :
    (V2.get_repo wGoInstall "alice/tool" []).2 = Outcome.normal ∧
      Ev.msg ("Installed as " ++ "tool") ∈ (V2.get_repo wGoInstall "alice/tool" []).1 ∧
      Ev.cmd rm_tmp_cmd ∉ (V2.get_repo wGoInstall "alice/tool" []).1 := by
  decide

/-- C8 as amended: only the v1 variant deletes the Workspace at the end of a
successful install — its `install_binary` issues `sudo rm -rf /tmp/fsdl` as
its final command whenever it succeeds.  The v2 variant never issues the
workspace-deletion command anywhere in `get`, so after a successful v2
install the Workspace remains on disk until an explicit `clean`. -/
theorem workspace_cleanup :
    (∀ (w : World) (rp : String) (flags : List String),
      Ev.cmd rm_tmp_cmd ∉ (V2.get_repo w rp flags).1) ∧
    (∀ (w : World) (bp r : String),
      (V1.install_binary w bp r).2 = Except.ok () →
      Ev.cmd rm_tmp_cmd ∈ (V1.install_binary w bp r).1) := by
  constructor
  · intro w rp flags
    have hfe := cmd_not_mem_fetchAll w rp rm_tmp_cmd
    have hex := cmd_not_mem_extractPhase w (fetchAll w rp).2 rm_tmp_cmd
    by_cases hE : (fetchAll w rp).2 = []
    · rw [V2_get_repo_empty w rp flags hE]
      simp [List.mem_append, hfe]
    · by_cases hnu : "--no-unzip" ∈ flags
      · rw [V2_get_repo_no_unzip w rp flags hnu hE]
        simp [List.mem_append, hfe]
      · by_cases hp : (pySplit rp).length = 2
        · by_cases hd : "install.sh" ∈ (fetchAll w rp).2
          · rw [V2_get_repo_script w rp flags hd hnu hp]
            by_cases hsc : w.scriptCode = 0 <;>
              simp [hsc, List.mem_append, hfe, hex]
          · rw [V2_get_repo_auto w rp flags hE hnu hp hd]
            obtain ⟨tail, htr, _, hrm⟩ :=
              V2_autoPhase_decomp w ((pySplit rp).getD 1 "")
            rw [htr]
            simp [List.mem_append, hfe, hex, hrm, V2_detect_no_rm]
        · rw [V2_get_repo_parse_exc w rp flags hE hnu hp]
          simp [List.mem_append, hfe, hex]
  · intro w bp r h
    simp only [V1.install_binary, run] at h ⊢
    split_ifs at h ⊢ with h1 h2 h3 h4 h5
    simp_all

/-- Witness for C8: a concrete successful v1 `install_binary` run contains
the workspace-deletion command. -/
theorem workspace_cleanup_witness :
    Ev.cmd rm_tmp_cmd ∈ (V1.install_binary wGoInstall "app_bin" "tool").1 :=
  workspace_cleanup.2 wGoInstall "app_bin" "tool" rfl

end Fileshare
